import Mathlib

/-!
Shallow embedding of `main.py` of the `special_refer` repository: a specialist
referral backend.  Pure Python string/dict manipulation is translated to Lean
functions over `String`/`List`; the Firestore collections are modelled as
explicit lists of documents threaded through the functions; the SMTP transport
and the random identifiers are modelled as explicit parameters (an outcome
value and hex strings).  Python truthiness of an optional string is modelled by
`truthyS`.  `firestore.SERVER_TIMESTAMP` and `datetime.now()` are modelled as
natural numbers (`serverTime`, `now` as a day index); `timedelta(weeks = k)` is
`7 * k` days and `strftime` is abstracted to the day index itself — no claim
depends on calendar formatting.
-/

/-- Lowercase an ASCII character; models Python `str.lower` on the ASCII range
(the embedding restricts case folding to ASCII, which covers every name the
claims evaluate). -/
def lowerChar (c : Char) : Char :=
  if 'A' ≤ c ∧ c ≤ 'Z' then Char.ofNat (c.toNat + 32) else c

/-- Lowercase a string; models Python `str.lower`. -/
def lowerStr (s : String) : String := String.mk (s.data.map lowerChar)

/-- Python truthiness of an optional string: `None` and `""` are falsy. -/
def truthyS : Option String → Bool
  | some s => s ≠ ""
  | none => false

/-- Does the first list start with the second (the pattern)? -/
def startsWithL : List Char → List Char → Bool
  | _, [] => true
  | [], _ :: _ => false
  | c :: cs, p :: ps => c = p && startsWithL cs ps

/-- Fuel-driven worker for `replaceStr` (Python `str.replace`, left to right,
non-overlapping).  The fuel is the length of the subject, enough because every
step consumes at least one character. -/
def replaceLoop (pat rep : List Char) : Nat → List Char → List Char
  | _, [] => []
  | 0, s => s
  | fuel + 1, c :: rest =>
    if pat ≠ [] ∧ startsWithL (c :: rest) pat then
      rep ++ replaceLoop pat rep fuel ((c :: rest).drop pat.length)
    else
      c :: replaceLoop pat rep fuel rest

/-- Python `s.replace(pat, rep)` for a non-empty pattern. -/
def replaceStr (s pat rep : String) : String :=
  String.mk (replaceLoop pat.data rep.data s.data.length s.data)

/-- Python `s[:n]`. -/
def takeStr (s : String) (n : Nat) : String := String.mk (s.data.take n)

/-- Character class `[a-zA-Z0-9._%+-]` of the local part of the email pattern. -/
def isLocalChar (c : Char) : Bool :=
  c.isAlphanum || c = '.' || c = '_' || c = '%' || c = '+' || c = '-'

/-- Character class `[a-zA-Z0-9.-]` of the domain part of the email pattern. -/
def isDomainChar (c : Char) : Bool :=
  c.isAlphanum || c = '.' || c = '-'

/-- Models `re.match(email_regex, s)` for
`email_regex = "^[a-zA-Z0-9._%+-]+@[a-zA-Z0-9.-]+\.[a-zA-Z]\x7b2,\x7d$"`
(main.py line 374).  The local part runs to the first `@` (the class excludes
`@`); the domain matches iff it splits at some dot into a non-empty run of
domain characters and a trailing run of at least two letters — existence of a
split is exactly what the backtracking regex accepts.  (The `$` of Python would also
tolerate one trailing newline; no address in this development contains one.) -/
def emailMatches (s : String) : Bool :=
  let cs := s.data
  let loc := cs.takeWhile (fun c => c ≠ '@')
  match cs.dropWhile (fun c => c ≠ '@') with
  | '@' :: domain =>
    loc ≠ [] && loc.all isLocalChar &&
      (List.range domain.length).any (fun i =>
        domain.get? i = some '.' && 1 ≤ i && (domain.take i).all isDomainChar &&
        2 ≤ domain.length - (i + 1) && (domain.drop (i + 1)).all Char.isAlpha)
  | _ => false

/-- Hardcoded specialist recipient (main.py line 55).  The orchestrator is
parametrised over the configured value (`Env.specialistEmail`); this constant
is the deployed value. -/
def SPECIALIST_EMAIL : String := "niljoshna28@gmail.com"

/-- Hardcoded referring doctor (main.py line 56). -/
def REFERRING_DOCTOR_NAME : String := "Lee Paul"

/-- JSON-like values of a request payload, for `get_string_param`.  Python
`None`/JSON null is `JValue.null`; a JSON object is `JValue.obj` with entries
in insertion order. -/
inductive JValue where
  | null
  | bool (v : Bool)
  | num (v : Int)
  | str (v : String)
  | obj (kvs : List (String × JValue))
deriving Repr

/-- Python `data_dict.get(key)`: the stored value, or `None` (here
`JValue.null`) when the key is absent — a stored JSON null and an absent key
are indistinguishable, exactly as in the Python handler. -/
def jget (data_dict : List (String × JValue)) (key : String) : JValue :=
  match data_dict.find? (fun kv => kv.1 = key) with
  | some kv => kv.2
  | none => JValue.null

/-- Is the value a non-empty mapping? (`isinstance(value, dict) and value`). -/
def isNonemptyObj : JValue → Bool
  | JValue.obj (_ :: _) => true
  | _ => false

/-- Embedding of `get_string_param` (main.py lines 285-289): a non-empty dict
value yields its first value (`list(value.values())[0]`, insertion order); an
absent key or a `None` value yields the default of the caller; anything else (an
empty dict included — falsy but not `None`) is returned unchanged. -/
def get_string_param (data_dict : List (String × JValue)) (key : String)
    (default_value : JValue) : JValue :=
  match jget data_dict key with
  | JValue.obj (kv :: _) => kv.2
  | JValue.obj [] => JValue.obj []
  | JValue.null => default_value
  | v => v

/-- Outcome of the SMTP transport for one send attempt: the body of the `try`
in `send_email_via_smtp` either succeeds or raises one of the three caught
exception classes (main.py lines 87-95), `e` standing for `str(e)`. -/
inductive TransportOutcome where
  | ok
  | authError (e : String)
  | connectError (e : String)
  | otherError (e : String)
deriving Repr, DecidableEq

/-- SMTP environment configuration (main.py lines 47-51); `none` models an
unset environment variable, and Python truthiness (`all([...])`) also rejects
an empty string. -/
structure SmtpConfig where
  host : Option String
  username : Option String
  password : Option String
  sender : Option String
deriving Repr, DecidableEq

/-- Is the SMTP configuration complete (`all([SMTP_HOST, SMTP_USERNAME,
SMTP_PASSWORD, SENDER_EMAIL])`, main.py line 64)? -/
def smtpConfigured (cfg : SmtpConfig) : Bool :=
  truthyS cfg.host && truthyS cfg.username && truthyS cfg.password && truthyS cfg.sender

/-- Embedding of `send_email_via_smtp` (main.py lines 59-95).  The function is
total: every transport outcome, configuration gap included, becomes a
`(success? , detail)` pair — nothing escapes this boundary. -/
def send_email_via_smtp (cfg : SmtpConfig) (outcome : TransportOutcome)
    (to_email subject plain_text_content html_content : String) : Bool × String :=
  if ¬ smtpConfigured cfg then
    (false, "SMTP credentials missing or incomplete in environment variables.")
  else
    match outcome with
    | TransportOutcome.ok => (true, "Email sent successfully via SMTP.")
    | TransportOutcome.authError e =>
      (false, "SMTP authentication failed: " ++ e ++ ". Please check SMTP username and password.")
    | TransportOutcome.connectError e =>
      (false, "SMTP connection failed: " ++ e ++ ". Please check SMTP host and port.")
    | TransportOutcome.otherError e =>
      (false, "An unexpected error occurred during email send: " ++ e)

/-- Fields of a document in the `patients` collection.  `none` models an
absent key; `created_at`/`last_updated` hold the server timestamp. -/
structure PatientFields where
  patient_id : Option String
  name : Option String
  email : Option String
  date_of_birth : Option String
  phone_number : Option String
  address : Option String
  created_at : Option Nat
  last_updated : Option Nat
deriving Repr, DecidableEq

/-- A document of the `patients` collection: its Firestore document id plus
its fields (`save_or_update_patient_profile` distinguishes the two). -/
structure PatientDoc where
  docId : String
  fields : PatientFields
deriving Repr, DecidableEq

/-- The `patient_data` dict passed to `save_or_update_patient_profile`: the
caller filters out `None` values, so `none` here means the key is absent. -/
structure PatientData where
  patient_id : Option String
  name : Option String
  email : Option String
  date_of_birth : Option String
  phone_number : Option String
  address : Option String
deriving Repr, DecidableEq

/-- The limit-1 equality query on the patient_id field: first document whose
`patient_id` field equals `pid`. -/
def findByPatientId (store : List PatientDoc) (pid : String) : Option PatientDoc :=
  store.find? (fun d => d.fields.patient_id = some pid)

/-- Merge of the update branch (main.py lines 144-168): `updated_data` always
contains `last_updated`, and a data field is included only when the incoming
value is truthy and differs from the stored one; `doc_ref.update` then merges
those keys into the stored document. -/
def mergeUpdate (ex : PatientFields) (patient_data : PatientData) (serverTime : Nat) :
    PatientFields :=
  { ex with
    name := if truthyS patient_data.name ∧ patient_data.name ≠ ex.name then
        patient_data.name else ex.name
    email := if truthyS patient_data.email ∧ patient_data.email ≠ ex.email then
        patient_data.email else ex.email
    date_of_birth := if truthyS patient_data.date_of_birth ∧
        patient_data.date_of_birth ≠ ex.date_of_birth then
        patient_data.date_of_birth else ex.date_of_birth
    phone_number := if truthyS patient_data.phone_number ∧
        patient_data.phone_number ≠ ex.phone_number then
        patient_data.phone_number else ex.phone_number
    address := if truthyS patient_data.address ∧ patient_data.address ≠ ex.address then
        patient_data.address else ex.address
    last_updated := some serverTime }

/-- Merge of the safeguard branch (main.py lines 181-188):
`\x7b**existing_data, **patient_data\x7d` — every key present in
`patient_data` overrides the stored one — then `last_updated` is stamped and
the whole document is `set`. -/
def mergeSet (ex : PatientFields) (patient_data : PatientData) (serverTime : Nat) :
    PatientFields :=
  { patient_id := patient_data.patient_id.orElse (fun _ => ex.patient_id)
    name := patient_data.name.orElse (fun _ => ex.name)
    email := patient_data.email.orElse (fun _ => ex.email)
    date_of_birth := patient_data.date_of_birth.orElse (fun _ => ex.date_of_birth)
    phone_number := patient_data.phone_number.orElse (fun _ => ex.phone_number)
    address := patient_data.address.orElse (fun _ => ex.address)
    created_at := ex.created_at
    last_updated := some serverTime }

/-- Embedding of `save_or_update_patient_profile` (main.py lines 121-197).
`dbInit` models whether the module-level Firestore client was obtained (`db is
None` check).  A missing `patient_id` key models the `KeyError` of line 136,
caught by the handler of line 195.  Firestore document ids are unique within a
collection, so updating by `docId` via `List.map` touches exactly one
document.  Note the `else` of line 166 ("no new data to update") is
unreachable: `updated_data` always contains `last_updated`, so the update is
always executed. -/
def save_or_update_patient_profile (dbInit : Bool) (store : List PatientDoc)
    (patient_data : PatientData) (serverTime : Nat) : List PatientDoc × Bool × String :=
  if ¬ dbInit then (store, false, "Firestore client not initialized.")
  else
    match patient_data.patient_id with
    | none =>
      (store, false, "Failed to save/update patient profile: KeyError: \x27patient_id\x27")
    | some pid =>
      match findByPatientId store pid with
      | some existing_doc =>
        (store.map (fun d =>
            if d.docId = existing_doc.docId then
              { d with fields := mergeUpdate d.fields patient_data serverTime }
            else d),
          true, "Patient profile updated.")
      | none =>
        if pid = "" then
          (store, false, "Cannot create new patient profile: \x27patient_id\x27 is missing.")
        else
          match store.find? (fun d => d.docId = pid) with
          | some byId =>
            (store.map (fun d =>
                if d.docId = pid then
                  { d with fields := mergeSet d.fields patient_data serverTime }
                else d),
              true, "Patient profile updated.")
          | none =>
            (store ++ [{ docId := pid
                         fields :=
                           { patient_id := some pid
                             name := patient_data.name
                             email := patient_data.email
                             date_of_birth := patient_data.date_of_birth
                             phone_number := patient_data.phone_number
                             address := patient_data.address
                             created_at := some serverTime
                             last_updated := some serverTime } }],
              true, "New patient profile created.")

/-- Embedding of `get_patient_profile_from_firestore` (main.py lines 200-224):
`(profile?, found?)`; an uninitialized client yields `(none, false)`. -/
def get_patient_profile_from_firestore (dbInit : Bool) (store : List PatientDoc)
    (patient_id : String) : Option PatientFields × Bool :=
  if ¬ dbInit then (none, false)
  else
    match findByPatientId store patient_id with
    | some d => (some d.fields, true)
    | none => (none, false)

/-- A document of the `appointments` collection read by `get_gp_doctor_backend`
(fields it inspects; `none` models an absent key). -/
structure ApptRecord where
  patient_id : Option String
  appointment_type : Option String
  timestamp : Option Nat
  doctor_name : Option String
deriving Repr, DecidableEq

/-- Response of the `/get_gp_doctor` endpoint, together with its HTTP status. -/
structure GpResult where
  status : Nat
  success : Bool
  doctor_name : Option String
  message : String
deriving Repr, DecidableEq

/-- Descending order on record timestamps used by
the in-place reverse sort keyed on the timestamp field (main.py line 262); the
Python filter guarantees the key is present, so the `getD 0` default never
matters. -/
def gpMoreRecent (a b : ApptRecord) : Prop := b.timestamp.getD 0 ≤ a.timestamp.getD 0

instance : DecidableRel gpMoreRecent := fun a b => Nat.decLe _ _

instance : IsTotal ApptRecord gpMoreRecent :=
  ⟨fun a b => Nat.le_total (b.timestamp.getD 0) (a.timestamp.getD 0)⟩

instance : IsTrans ApptRecord gpMoreRecent :=
  ⟨fun _ _ _ h1 h2 => Nat.le_trans h2 h1⟩

/-- The documents `get_gp_doctor_backend` keeps for a patient: the query
the equality query on the patient_id field followed by the in-Python filter for
the appointment type tag "GP" with a `timestamp` key present (main.py lines
248-259). -/
def gpMatches (store : List ApptRecord) (pid : String) : List ApptRecord :=
  (store.filter (fun a => a.patient_id = some pid)).filter
    (fun a => a.appointment_type = some "GP" && a.timestamp.isSome)

/-- Embedding of `get_gp_doctor_backend` (main.py lines 227-281).  The sort is
`List.insertionSort gpMoreRecent`: a stable descending sort, like the Python
`sort(..., reverse=True)`.  A most-recent `doctor_name` equal to the generic
placeholder "a GP doctor" is treated as not found (line 267); note `success`
uses `is not None` while `message` uses truthiness, exactly as lines 274-276.
The request `patient_id` arrives through `get_string_param` with no default,
hence the `Option String` argument. -/
def get_gp_doctor_backend (dbInit : Bool) (store : List ApptRecord)
    (patient_id : Option String) : GpResult :=
  if ¬ dbInit then
    { status := 500, success := false, doctor_name := none
      message := "Firestore client not initialized." }
  else if ¬ truthyS patient_id then
    { status := 400, success := false, doctor_name := none
      message := "Patient ID is required." }
  else
    let gp_appointments := gpMatches store (patient_id.getD "")
    match (List.insertionSort gpMoreRecent gp_appointments).head? with
    | none =>
      { status := 200, success := false, doctor_name := none
        message := "No GP doctor found for this patient." }
    | some top =>
      let doctor_name := if top.doctor_name = some "a GP doctor" then none
        else top.doctor_name
      { status := 200
        success := doctor_name.isSome
        doctor_name := doctor_name
        message := if truthyS doctor_name then "GP doctor retrieved successfully."
          else "No GP doctor found for this patient." }

/-- Fields of a document written to the `specialist_appointments` collection
(main.py lines 513-532), plus the server timestamp stamped by
`save_appointment_to_firestore` (line 111). -/
structure SpecApptFields where
  appointment_id : String
  patient_id : String
  appointment_type : String
  assigned_date : Nat
  assigned_time : String
  symptoms : String
  duration_value : Option Int
  duration_unit : Option String
  patient_name : Option String
  specialist_email : String
  patient_email : Option String
  referring_doctor : String
  treatment_details : Option String
  urgent : Bool
  specialist_email_sent_status : Bool
  patient_email_sent_status : Bool
  patient_history_retrieved : Bool
  patient_history_summary : String
  timestamp : Nat
deriving Repr, DecidableEq

/-- Embedding of `save_appointment_to_firestore` (main.py lines 98-118):
stamps the server timestamp and `set`s the document keyed by
`appointment_id` (overwriting any document with that id). -/
def save_appointment_to_firestore (dbInit : Bool) (store : List SpecApptFields)
    (appointment_details : SpecApptFields) (serverTime : Nat) :
    List SpecApptFields × Bool × String :=
  if ¬ dbInit then (store, false, "Firestore client not initialized.")
  else
    let stamped := { appointment_details with timestamp := serverTime }
    ((store.filter (fun d => d.appointment_id ≠ stamped.appointment_id)) ++ [stamped],
      true, "Appointment saved to database.")

/-- Slot assignment of main.py lines 405-426 as a function of the invocation
time (a day index) and the duration pair; returns the assigned date and the
wall-clock time string.  `timedelta(weeks = k)` is `7 * k` days. -/
def assignSlot (now : Nat) (duration_value : Option Int)
    (duration_unit : Option String) : Nat × String :=
  if duration_value.isSome ∧ truthyS duration_unit then
    let v := duration_value.getD 0
    let u := duration_unit.getD ""
    if u = "days" ∧ v ≤ 7 then (now + 14, "10:00")
    else if u = "weeks" ∧ v ≤ 4 then (now + 21, "14:00")
    else if (u = "months" ∧ 1 ≤ v) ∨ (u = "weeks" ∧ 4 < v) then (now + 42, "11:00")
    else (now + 21, "09:30")
  else (now + 21, "09:00")

/-- Result of identity resolution (main.py lines 314-352): either the fatal
name-mismatch error of lines 336-341, carrying the request name, the stored
name and the identifier, or the resolved (identifier, name, email). -/
inductive ResolveOutcome where
  | mismatch (request_name db_name pid : String)
  | resolved (pid : String) (final_patient_name : Option String)
      (final_patient_email : Option String)
deriving Repr, DecidableEq

/-- Identity resolution of `send_referral_email_backend` (main.py lines
314-352).  `patient_id` is the request value after the sentinel "N/A"
default of the extractor; `freshHex` models the random hex of line 326.
The inner regeneration check of line 325 (testing the sentinel again) sits in
a branch where the identifier is already non-sentinel, hence unreachable. -/
def resolveIdentity (dbInit : Bool) (store : List PatientDoc) (patient_id : String)
    (patient_name_from_request : Option String) (freshHex : String) : ResolveOutcome :=
  if patient_id ≠ "" ∧ patient_id ≠ "N/A" then
    match get_patient_profile_from_firestore dbInit store patient_id with
    | (some patient_profile, _) =>
      let db_patient_name := patient_profile.name
      let db_patient_email := patient_profile.email
      if truthyS patient_name_from_request ∧ truthyS db_patient_name ∧
          lowerStr (patient_name_from_request.getD "") ≠ lowerStr (db_patient_name.getD "") then
        ResolveOutcome.mismatch (patient_name_from_request.getD "")
          (db_patient_name.getD "") patient_id
      else
        ResolveOutcome.resolved patient_id
          (if truthyS db_patient_name then db_patient_name else patient_name_from_request)
          db_patient_email
    | (none, _) =>
      ResolveOutcome.resolved patient_id patient_name_from_request none
  else
    ResolveOutcome.resolved ("PATIENT_" ++ freshHex) patient_name_from_request none

/-- The scalar fields of a referral request after extraction (main.py lines
303-312): `none` models an absent or null key, before defaults are applied. -/
structure ReferralRequest where
  patient_id : Option String
  patient_name : Option String
  treatment_details : Option String
  urgent : Bool
  symptoms : Option String
  duration_value : Option Int
  duration_unit : Option String
deriving Repr, DecidableEq

/-- The environment of one request: the module configuration, the two
Firestore collections, the transport outcomes of the (up to) two send
attempts, the random hex strings, the invocation day index and the server
timestamp. -/
structure Env where
  dbInit : Bool
  patients : List PatientDoc
  appointments : List SpecApptFields
  smtp : SmtpConfig
  specialistEmail : String
  referringDoctor : String
  specOutcome : TransportOutcome
  patOutcome : TransportOutcome
  freshHex : String
  apptHex : String
  now : Nat
  serverTime : Nat
deriving Repr, DecidableEq

/-- The observable outcome of one referral request: the JSON response fields
(`none` for a field the early-error responses omit), the HTTP status, both
collections afterwards, and the recipients of every `send_email_via_smtp`
call in order. -/
structure RefResult where
  status : Nat
  success : Bool
  message : String
  assigned_date : Option Nat
  assigned_time : Option String
  appointment_id : Option String
  patient_email_sent_status : Option Bool
  specialist_email_sent_status : Option Bool
  db_save_success : Option Bool
  confirmation_email_address : Option String
  patients : List PatientDoc
  appointments : List SpecApptFields
  sends : List String
deriving Repr, DecidableEq

/-- An early-error JSON response (main.py lines 338, 393, 398, 403): only
`success` and `message`, no side effects beyond the given patient store. -/
def errorResult (status : Nat) (message : String) (patients : List PatientDoc)
    (appointments : List SpecApptFields) : RefResult :=
  { status := status, success := false, message := message
    assigned_date := none, assigned_time := none, appointment_id := none
    patient_email_sent_status := none, specialist_email_sent_status := none
    db_save_success := none, confirmation_email_address := none
    patients := patients, appointments := appointments, sends := [] }

/-- Embedding of `send_referral_email_backend` (main.py lines 293-561): the
whole referral pipeline — identity resolution, profile upsert, field and
email-format validation, slot assignment, the two send attempts and the
appointment write — with every side effect made explicit in the result.
Note the ordering, faithful to the source: the profile upsert (lines 367-371)
runs before the required-field and email-format validation (lines 383-403). -/
def send_referral_email_backend (env : Env) (req : ReferralRequest) : RefResult :=
  let patient_id0 := req.patient_id.getD "N/A"
  let symptoms := req.symptoms.getD "unspecified symptoms"
  match resolveIdentity env.dbInit env.patients patient_id0 req.patient_name env.freshHex with
  | ResolveOutcome.mismatch request_name db_name pid =>
    errorResult 400
      ("Patient name \x27" ++ request_name ++ "\x27 does not match the name \x27" ++
        db_name ++ "\x27 registered for Patient ID \x27" ++ pid ++ "\x27. Please verify.")
      env.patients env.appointments
  | ResolveOutcome.resolved patient_id final_patient_name final_patient_email =>
    let name_to_save_in_profile :=
      if truthyS req.patient_name then req.patient_name else final_patient_name
    let patient_profile_data_to_save : PatientData :=
      { patient_id := some patient_id, name := name_to_save_in_profile
        email := final_patient_email, date_of_birth := none
        phone_number := none, address := none }
    -- the filtered dict always holds patient_id, hence is non-empty: the save always runs;
    -- a failed profile save is only logged (lines 370-371)
    let profileSave :=
      save_or_update_patient_profile env.dbInit env.patients
        patient_profile_data_to_save env.serverTime
    let patients1 := profileSave.1
    let missing_fields :=
      (if truthyS final_patient_name then [] else ["patient_name"]) ++
        (if truthyS req.treatment_details then [] else ["treatment_details"])
    if missing_fields ≠ [] then
      errorResult 400
        ("Missing required referral details: " ++ String.intercalate ", " missing_fields ++ ".")
        patients1 env.appointments
    else if ¬ emailMatches env.specialistEmail then
      errorResult 500 "Internal configuration error: Invalid specialist email format."
        patients1 env.appointments
    else if truthyS final_patient_email ∧ ¬ emailMatches (final_patient_email.getD "") then
      errorResult 400 "Invalid patient email format from database." patients1 env.appointments
    else
      let slot := assignSlot env.now req.duration_value req.duration_unit
      let final_appointment_date := slot.1
      let final_appointment_time := slot.2
      let appointment_id :=
        "SPEC-" ++ takeStr (replaceStr patient_id "N/A" "UNKNOWN") 5 ++ "-" ++ env.apptHex
      let patient_history := "No detailed history available."
      let pname := final_patient_name.getD ""
      let treatment_details := req.treatment_details.getD ""
      let urgencyMark := if req.urgent then "URGENT: " else ""
      let specialist_subject :=
        urgencyMark ++ "Specialist Referral for " ++ pname ++ " (Patient ID: " ++
          patient_id ++ ")"
      let specialist_plain_text_body :=
        "Dear Specialist/Referral Department,\n\n" ++
          "This is a referral for patient " ++ pname ++ " (Patient ID: " ++ patient_id ++
          ").\n" ++
          "Assigned Appointment: " ++ toString final_appointment_date ++ " at " ++
          final_appointment_time ++ "\n" ++
          "Referring Doctor: " ++ env.referringDoctor ++ "\n" ++
          "Urgency: " ++ (if req.urgent then "Urgent" else "Routine") ++ "\n\n" ++
          "--- Patient Symptoms & Treatment Details ---\n" ++ treatment_details ++ "\n\n" ++
          "--- Patient History (from record) ---\n" ++ patient_history ++ "\n\n" ++
          "Please review and contact the patient as appropriate regarding this appointment.\n\n" ++
          "Sincerely,\nAI Medical Assistant (System for Learning - Do Not Reply)"
      let specialist_html_body :=
        "<p><strong>Dear Specialist/Referral Department,</strong></p>" ++
          "<p>This is a referral for patient <strong>" ++ pname ++
          "</strong> (Patient ID: " ++ patient_id ++ ").</p>" ++
          "<p><strong>Assigned Appointment:</strong> " ++ toString final_appointment_date ++
          " at " ++ final_appointment_time ++ "</p>" ++
          "<p><strong>Referring Doctor:</strong> " ++ env.referringDoctor ++ "</p>" ++
          "<p><strong>Urgency:</strong> " ++
          (if req.urgent then "<span style=\"color: red; font-weight: bold;\">URGENT</span>"
            else "Routine") ++ "</p>" ++
          "<p><strong>Patient Symptoms & Treatment Details:</strong><br>" ++
          replaceStr treatment_details "\n" "<br>" ++ "</p>" ++
          "<p><strong>Patient History (from record):</strong><br>" ++
          replaceStr patient_history "\n" "<br>" ++ "</p>" ++
          "<p>Please review and contact the patient as appropriate regarding this appointment.</p>" ++
          "<p>Sincerely,<br>AI Medical Assistant (System for Learning - Do Not Reply)</p>"
      let patient_subject := "Your Specialist Appointment Confirmation: " ++ appointment_id
      let patient_plain_text_body :=
        "Dear " ++ pname ++ ",\n\n" ++
          "Your specialist appointment has been booked.\n" ++
          "Appointment ID: " ++ appointment_id ++ "\n" ++
          "Date: " ++ toString final_appointment_date ++ "\n" ++
          "Time: " ++ final_appointment_time ++ "\n" ++
          "Referring Doctor: " ++ env.referringDoctor ++ "\n" ++
          "Reason for visit: " ++ symptoms ++ "\n\n" ++
          "Further details will be provided by the specialist\x27s office.\n\n" ++
          "Please remember: This is a confirmation for learning purposes only. " ++
          "Always consult a real healthcare professional for actual medical needs."
      let patient_html_body :=
        "<p><strong>Dear " ++ pname ++ ",</strong></p>" ++
          "<p>Your specialist appointment has been booked.</p>" ++
          "<p><strong>Appointment ID:</strong> " ++ appointment_id ++ "</p>" ++
          "<p><strong>Date:</strong> " ++ toString final_appointment_date ++ "</p>" ++
          "<p><strong>Time:</strong> " ++ final_appointment_time ++ "</p>" ++
          "<p><strong>Referring Doctor:</strong> " ++ env.referringDoctor ++ "</p>" ++
          "<p><strong>Reason for visit:</strong> " ++ symptoms ++ "</p>" ++
          "<p>Further details will be provided by the specialist\x27s office.</p>" ++
          "<p>Please remember: This is a confirmation for learning purposes only. " ++
          "Always consult a real healthcare professional for actual medical needs.</p>"
      let specSend := send_email_via_smtp env.smtp env.specOutcome env.specialistEmail
          specialist_subject specialist_plain_text_body specialist_html_body
      let patAttempt := truthyS final_patient_email &&
        emailMatches (final_patient_email.getD "")
      let patSend :=
        if patAttempt then
          send_email_via_smtp env.smtp env.patOutcome (final_patient_email.getD "")
            patient_subject patient_plain_text_body patient_html_body
        else (false, "Patient email not found in database or invalid format.")
      let appointment_details_to_store : SpecApptFields :=
        { appointment_id := appointment_id
          patient_id := patient_id
          appointment_type := "Specialist"
          assigned_date := final_appointment_date
          assigned_time := final_appointment_time
          symptoms := symptoms
          duration_value := req.duration_value
          duration_unit := req.duration_unit
          patient_name := final_patient_name
          specialist_email := env.specialistEmail
          patient_email := final_patient_email
          referring_doctor := env.referringDoctor
          treatment_details := req.treatment_details
          urgent := req.urgent
          specialist_email_sent_status := specSend.1
          patient_email_sent_status := patSend.1
          patient_history_retrieved := false
          patient_history_summary := patient_history
          timestamp := 0 }
      let dbSave := save_appointment_to_firestore env.dbInit env.appointments
          appointment_details_to_store env.serverTime
      let response_message :=
        "Specialist appointment booked and emails sent." ++
          (if ¬ specSend.1 then " Issue sending specialist email: " ++ specSend.2 ++ "."
            else "") ++
          (if ¬ patSend.1 then " Issue sending patient email: " ++ patSend.2 ++ "."
            else "") ++
          (if ¬ dbSave.2.1 then " (Note: Failed to save appointment to database: " ++
            dbSave.2.2 ++ ")" else "")
      { status := 200
        success := specSend.1 && patSend.1 && dbSave.2.1
        message := response_message
        assigned_date := some final_appointment_date
        assigned_time := some final_appointment_time
        appointment_id := some appointment_id
        patient_email_sent_status := some patSend.1
        specialist_email_sent_status := some specSend.1
        db_save_success := some dbSave.2.1
        confirmation_email_address := final_patient_email
        patients := patients1
        appointments := dbSave.1
        sends := [env.specialistEmail] ++
          (if patAttempt then [final_patient_email.getD ""] else []) }

/-- A fully working environment: Firestore initialized, SMTP configured, both
transports succeeding, empty collections. -/
def envOk : Env :=
  { dbInit := true, patients := [], appointments := []
    smtp := { host := some "smtp.gmail.com", username := some "u"
              password := some "p", sender := some "niljoshna28@gmail.com" }
    specialistEmail := SPECIALIST_EMAIL, referringDoctor := REFERRING_DOCTOR_NAME
    specOutcome := TransportOutcome.ok, patOutcome := TransportOutcome.ok
    freshHex := "abcd1234", apptHex := "a1b2c3", now := 20000, serverTime := 5 }

/-- A referral request for a brand-new patient (no identifier supplied), with
a short symptom duration. -/
def reqNew : ReferralRequest :=
  { patient_id := none, patient_name := some "John Doe"
    treatment_details := some "Chest pain evaluation", urgent := false
    symptoms := some "chest pain", duration_value := some 5
    duration_unit := some "days" }

/-- A stored profile for patient `P1` named Alice Smith. -/
def profAlice : PatientDoc :=
  { docId := "P1"
    fields := { patient_id := some "P1", name := some "Alice Smith"
                email := some "alice@example.com", date_of_birth := none
                phone_number := none, address := none
                created_at := some 1, last_updated := some 1 } }

/-- The working environment with the profile of Alice stored. -/
def envWithAlice : Env := { envOk with patients := [profAlice] }

/-- A request referring patient `P1` under a different name. -/
def reqBob : ReferralRequest :=
  { patient_id := some "P1", patient_name := some "Bob Jones"
    treatment_details := some "X-ray", urgent := false
    symptoms := some "knee pain", duration_value := none, duration_unit := none }

/-- The working environment with a malformed configured specialist address. -/
def envBadSpec : Env := { envOk with specialistEmail := "bad-address" }

/-- A re-submission of the data of Alice: same identifier, unchanged name, no
email (the shape `send_referral_email_backend` builds for an existing profile
whose stored email is absent — here passed directly to the profile writer). -/
def dataAliceAgain : PatientData :=
  { patient_id := some "P1", name := some "Alice Smith", email := none
    date_of_birth := none, phone_number := none, address := none }

/-- A stored GP appointment whose doctor name is the generic placeholder. -/
def gpPlaceholderRecord : ApptRecord :=
  { patient_id := some "P1", appointment_type := some "GP"
    timestamp := some 5, doctor_name := some "a GP doctor" }

/-- A stored GP appointment with a real doctor name. -/
def gpDrJones : ApptRecord :=
  { patient_id := some "P2", appointment_type := some "GP"
    timestamp := some 9, doctor_name := some "Dr Jones" }

/-- C1: the assigned slot is a deterministic function of the duration
value/unit pair and the invocation time: (days, value ≤ 7) gives now + 2
weeks at 10:00; (weeks, value ≤ 4) gives now + 3 weeks at 14:00; (months,
value ≥ 1) or (weeks, value > 4) gives now + 6 weeks at 11:00; any other
combination with the duration present gives now + 3 weeks at 09:30; an absent
duration gives now + 3 weeks at 09:00.  In particular (5, days) gives
+2 weeks at 10:00, (3, weeks) +3 weeks at 14:00, (5, weeks) +6 weeks at
11:00. -/
theorem slot_assignment_table :
    (∀ (now : Nat) (v : Int), v ≤ 7 →
      assignSlot now (some v) (some "days") = (now + 14, "10:00")) ∧
    (∀ (now : Nat) (v : Int), v ≤ 4 →
      assignSlot now (some v) (some "weeks") = (now + 21, "14:00")) ∧
    (∀ (now : Nat) (v : Int), 1 ≤ v →
      assignSlot now (some v) (some "months") = (now + 42, "11:00")) ∧
    (∀ (now : Nat) (v : Int), 4 < v →
      assignSlot now (some v) (some "weeks") = (now + 42, "11:00")) ∧
    (∀ (now : Nat) (v : Int) (u : String), u ≠ "" →
      ¬ (u = "days" ∧ v ≤ 7) → ¬ (u = "weeks" ∧ v ≤ 4) →
      ¬ (u = "months" ∧ 1 ≤ v) → ¬ (u = "weeks" ∧ 4 < v) →
      assignSlot now (some v) (some u) = (now + 21, "09:30")) ∧
    (∀ (now : Nat) (dv : Option Int) (du : Option String),
      ¬ (dv.isSome ∧ truthyS du) → assignSlot now dv du = (now + 21, "09:00")) ∧
    (∀ now : Nat,
      assignSlot now (some 5) (some "days") = (now + 14, "10:00") ∧
      assignSlot now (some 3) (some "weeks") = (now + 21, "14:00") ∧
      assignSlot now (some 5) (some "weeks") = (now + 42, "11:00")) := by
  refine ⟨?_, ?_, ?_, ?_, ?_, ?_, ?_⟩
  · intro now v h
    simp [assignSlot, truthyS, h]
  · intro now v h
    have h4 : ¬ ((4 : Int) < v) := by omega
    simp [assignSlot, truthyS, h, h4]
  · intro now v h
    simp [assignSlot, truthyS, h]
  · intro now v h
    have h4 : ¬ (v ≤ 4) := by omega
    simp [assignSlot, truthyS, h, h4]
  · intro now v u hu h1 h2 h3 h4
    have hc : (some v : Option Int).isSome ∧ truthyS (some u) = true := by
      simp [truthyS, hu]
    simp only [assignSlot, if_pos hc, Option.getD_some]
    rw [if_neg h1, if_neg h2, if_neg (fun h => h.elim h3 h4)]
  · intro now dv du h
    simp only [assignSlot, if_neg h]
  · intro now
    refine ⟨?_, ?_, ?_⟩ <;> simp [assignSlot, truthyS]

/-- Witness for `slot_assignment_table` at a concrete input. -/
theorem slot_assignment_table_w :
    assignSlot 100 (some 5) (some "days") = (114, "10:00") :=
  slot_assignment_table.1 100 5 (by decide)

/-- C7: for every configuration, transport outcome and message, the send
helper returns a `(Bool, String)` pair — it is a total function, nothing
escapes the boundary — succeeding exactly when the configuration is complete
and the transport succeeds, and mapping each failure to `false` with the
descriptive categorized reason (missing configuration, authentication
failure, connection failure, other). -/
theorem smtp_send_total_and_categorized (cfg : SmtpConfig) (outcome : TransportOutcome)
    (to_email subject plain html : String) :
    ((send_email_via_smtp cfg outcome to_email subject plain html).1 = true ↔
      (smtpConfigured cfg = true ∧ outcome = TransportOutcome.ok)) ∧
    (smtpConfigured cfg = false →
      send_email_via_smtp cfg outcome to_email subject plain html =
        (false, "SMTP credentials missing or incomplete in environment variables.")) ∧
    (∀ e, smtpConfigured cfg = true → outcome = TransportOutcome.authError e →
      send_email_via_smtp cfg outcome to_email subject plain html =
        (false, "SMTP authentication failed: " ++ e ++
          ". Please check SMTP username and password.")) ∧
    (∀ e, smtpConfigured cfg = true → outcome = TransportOutcome.connectError e →
      send_email_via_smtp cfg outcome to_email subject plain html =
        (false, "SMTP connection failed: " ++ e ++ ". Please check SMTP host and port.")) ∧
    (∀ e, smtpConfigured cfg = true → outcome = TransportOutcome.otherError e →
      send_email_via_smtp cfg outcome to_email subject plain html =
        (false, "An unexpected error occurred during email send: " ++ e)) := by
  by_cases h : smtpConfigured cfg = true <;>
    cases outcome <;> simp [send_email_via_smtp, h]

/-- Witness for `smtp_send_total_and_categorized`: an authentication failure
at a concrete input becomes a failure pair. -/
theorem smtp_send_total_and_categorized_w :
    send_email_via_smtp envOk.smtp (TransportOutcome.authError "535") "a@b.co" "s" "p" "h" =
      (false, "SMTP authentication failed: 535. Please check SMTP username and password.") :=
  (smtp_send_total_and_categorized envOk.smtp (TransportOutcome.authError "535")
    "a@b.co" "s" "p" "h").2.2.1 "535" (by decide) rfl

/-- C8: the field extractor returns one of the values of the mapping (not the
mapping itself) when the raw value under the key is a non-empty mapping;
the caller-supplied default when the key is absent or its value is null
(`jget` yields `JValue.null` in both cases, as the Python `dict.get`); and the
raw value unchanged otherwise. -/
theorem get_string_param_shapes (data_dict : List (String × JValue)) (key : String)
    (default_value : JValue) :
    (∀ kv kvs, jget data_dict key = JValue.obj (kv :: kvs) →
      get_string_param data_dict key default_value ∈ (kv :: kvs).map Prod.snd) ∧
    (jget data_dict key = JValue.null →
      get_string_param data_dict key default_value = default_value) ∧
    (jget data_dict key ≠ JValue.null → isNonemptyObj (jget data_dict key) = false →
      get_string_param data_dict key default_value = jget data_dict key) := by
  refine ⟨?_, ?_, ?_⟩
  · intro kv kvs h
    simp [get_string_param, h]
  · intro h
    simp [get_string_param, h]
  · intro h1 h2
    cases hv : jget data_dict key with
    | obj kvs =>
      cases kvs with
      | nil => simp [get_string_param, hv]
      | cons a l => rw [hv] at h2; simp [isNonemptyObj] at h2
    | null => exact absurd hv h1
    | bool v => simp [get_string_param, hv]
    | num v => simp [get_string_param, hv]
    | str v => simp [get_string_param, hv]

/-- Witness for `get_string_param_shapes`: a scalar wrapped in a singleton
object is unwrapped to one of the values of the object. -/
theorem get_string_param_shapes_w :
    get_string_param [("symptoms", JValue.obj [("value", JValue.str "cough")])]
        "symptoms" JValue.null ∈
      [("value", JValue.str "cough")].map Prod.snd :=
  (get_string_param_shapes [("symptoms", JValue.obj [("value", JValue.str "cough")])]
    "symptoms" JValue.null).1 ("value", JValue.str "cough") [] rfl

/-- C6: identity resolution — a sentinel (`"N/A"`) or absent (falsy)
identifier yields a fresh generated identifier with the request name and no
email; a non-sentinel identifier whose lookup finds no profile keeps the
given identifier (it is not regenerated), again with the request name and no
email. -/
theorem identity_resolution_new_patients (dbInit : Bool) (store : List PatientDoc)
    (request_name : Option String) (freshHex : String) :
    (∀ pid0, pid0 = "N/A" ∨ pid0 = "" →
      resolveIdentity dbInit store pid0 request_name freshHex =
        ResolveOutcome.resolved ("PATIENT_" ++ freshHex) request_name none) ∧
    (∀ pid0, pid0 ≠ "N/A" → pid0 ≠ "" →
      (get_patient_profile_from_firestore dbInit store pid0).2 = false →
      resolveIdentity dbInit store pid0 request_name freshHex =
        ResolveOutcome.resolved pid0 request_name none) := by
  constructor
  · intro pid0 h
    rcases h with h | h <;> simp [resolveIdentity, h]
  · intro pid0 h1 h2 hfound
    have hnone : (get_patient_profile_from_firestore dbInit store pid0).1 = none := by
      unfold get_patient_profile_from_firestore at hfound ⊢
      by_cases hd : dbInit <;> simp [hd] at hfound ⊢
      cases hf : findByPatientId store pid0 with
      | some d => simp [hf] at hfound
      | none => simp [hf]
    unfold resolveIdentity
    rw [if_pos ⟨h2, h1⟩]
    cases hp : get_patient_profile_from_firestore dbInit store pid0 with
    | mk a b => rw [hp] at hnone; cases hnone; rfl

/-- Witness for `identity_resolution_new_patients`: the sentinel identifier
yields a freshly generated one. -/
theorem identity_resolution_new_patients_w :
    resolveIdentity true [] "N/A" (some "John Doe") "ff00aa11" =
      ResolveOutcome.resolved "PATIENT_ff00aa11" (some "John Doe") none :=
  (identity_resolution_new_patients true [] (some "John Doe") "ff00aa11").1
    "N/A" (Or.inl rfl)

/-- C5 counterexample: re-submitting an existing profile with the same
identifier, an unchanged name and no new email still changes the stored
document — `updated_data` always carries `last_updated`, so the update is
executed and the timestamp moves.  The claim that "the stored profile
document is unchanged after the update" is therefore false. -/
theorem profile_resubmit_changes_document :
    dataAliceAgain.patient_id = profAlice.fields.patient_id ∧
    dataAliceAgain.name = profAlice.fields.name ∧
    dataAliceAgain.email = none ∧
    (save_or_update_patient_profile true [profAlice] dataAliceAgain 2).1 ≠ [profAlice] := by
  decide

/-- C5 (amended): re-invoking with the same identifier and an unchanged name
(and no new email) performs a profile update that changes no data field —
the stored document afterwards equals the stored document before except that
its `last_updated` timestamp is refreshed (and the writer reports
"Patient profile updated.").  The `docId` uniqueness hypothesis is the
Firestore invariant that a collection holds one document per id. -/
theorem profile_update_same_name_touches_only_timestamp
    (store : List PatientDoc) (pid : String) (d : PatientDoc) (data : PatientData) (t : Nat)
    (hid : data.patient_id = some pid)
    (hfind : findByPatientId store pid = some d)
    (huniq : ∀ x ∈ store, x.docId = d.docId → x = d)
    (hname : data.name = d.fields.name ∨ truthyS data.name = false)
    (hemail : data.email = none) (hdob : data.date_of_birth = none)
    (hph : data.phone_number = none) (haddr : data.address = none) :
    save_or_update_patient_profile true store data t =
      (store.map (fun x => if x.docId = d.docId then
          { x with fields := { x.fields with last_updated := some t } } else x),
        true, "Patient profile updated.") := by
  have c1 : ¬ (truthyS data.name = true ∧ data.name ≠ d.fields.name) := by
    rcases hname with hn | hn
    · exact fun hc => hc.2 hn
    · exact fun hc => by rw [hn] at hc; exact absurd hc.1 (by simp)
  have hmerge : mergeUpdate d.fields data t =
      { d.fields with last_updated := some t } := by
    unfold mergeUpdate
    rw [if_neg c1]
    simp [hemail, hdob, hph, haddr, truthyS]
  unfold save_or_update_patient_profile
  simp only [hid, hfind, Bool.not_true, Bool.false_eq_true, if_false]
  have hpt : ∀ x ∈ store,
      (if x.docId = d.docId then { x with fields := mergeUpdate x.fields data t } else x) =
        (if x.docId = d.docId then
          { x with fields := { x.fields with last_updated := some t } } else x) := by
    intro x hx
    by_cases hdoc : x.docId = d.docId
    · have hxd := huniq x hx hdoc
      subst hxd
      simp [hmerge]
    · simp [hdoc]
  exact Prod.ext (List.map_congr_left hpt) rfl

/-- Witness for `profile_update_same_name_touches_only_timestamp` at the
stored profile of Alice. -/
theorem profile_update_same_name_touches_only_timestamp_w :
    save_or_update_patient_profile true [profAlice] dataAliceAgain 2 =
      ([{ profAlice with fields := { profAlice.fields with last_updated := some 2 } }],
        true, "Patient profile updated.") :=
  profile_update_same_name_touches_only_timestamp [profAlice] "P1" profAlice
    dataAliceAgain 2 rfl (by decide) (by decide) (Or.inl rfl) rfl rfl rfl rfl

/-- The head of the stable descending sort used by `get_gp_doctor_backend` is
an element of the list with a maximal timestamp. -/
theorem gpSort_head_is_max (l : List ApptRecord) (a : ApptRecord)
    (h : (List.insertionSort gpMoreRecent l).head? = some a) :
    a ∈ l ∧ ∀ b ∈ l, gpMoreRecent a b := by
  have hperm := List.perm_insertionSort gpMoreRecent l
  have hsorted := List.sorted_insertionSort gpMoreRecent l
  obtain ⟨tl, hcons⟩ : ∃ tl, List.insertionSort gpMoreRecent l = a :: tl := by
    cases hs : List.insertionSort gpMoreRecent l with
    | nil => rw [hs] at h; exact absurd h (by simp)
    | cons x xs =>
      rw [hs] at h
      simp only [List.head?, Option.some_inj] at h
      exact ⟨xs, by rw [h]⟩
  constructor
  · exact hperm.subset (hcons ▸ List.mem_cons_self a tl)
  · intro b hb
    have hb' : b ∈ a :: tl := hcons ▸ (hperm.mem_iff).mpr hb
    rcases List.mem_cons.mp hb' with hba | htl
    · rw [hba]; exact Nat.le_refl _
    · rw [hcons] at hsorted
      exact (List.sorted_cons.mp hsorted).1 b htl

/-- C9 counterexample: with one stored general-practice appointment for the
patient whose doctor name is the generic placeholder "a GP doctor", the
lookup returns not-found instead of the doctor name of the most recent
matching appointment — refuting the claim that the most recent doctor name is
always returned when a matching appointment exists. -/
theorem gp_doctor_placeholder_returns_not_found :
    gpMatches [gpPlaceholderRecord] "P1" = [gpPlaceholderRecord] ∧
    gpPlaceholderRecord.doctor_name = some "a GP doctor" ∧
    (get_gp_doctor_backend true [gpPlaceholderRecord] (some "P1")).doctor_name = none ∧
    (get_gp_doctor_backend true [gpPlaceholderRecord] (some "P1")).success = false := by
  decide

/-- C9 (amended): for a truthy patient identifier, the lookup keeps exactly
the stored appointments matching the identifier and the general-practice tag
(with a record timestamp present), sorts them by timestamp descending
client-side, and answers from the most recent one: its doctor name — unless
that name is absent or the placeholder "a GP doctor", which is reported as
not found — with the success flag mirroring whether a doctor name was
returned; when no matching appointment exists the result is not-found. -/
theorem gp_doctor_lookup (store : List ApptRecord) (pid : String) (hpid : pid ≠ "") :
    (gpMatches store pid = [] →
      get_gp_doctor_backend true store (some pid) =
        { status := 200, success := false, doctor_name := none
          message := "No GP doctor found for this patient." }) ∧
    (gpMatches store pid ≠ [] →
      ∃ a ∈ gpMatches store pid,
        (∀ b ∈ gpMatches store pid, b.timestamp.getD 0 ≤ a.timestamp.getD 0) ∧
        (get_gp_doctor_backend true store (some pid)).status = 200 ∧
        (get_gp_doctor_backend true store (some pid)).doctor_name =
          (if a.doctor_name = some "a GP doctor" then none else a.doctor_name) ∧
        (get_gp_doctor_backend true store (some pid)).success =
          ((get_gp_doctor_backend true store (some pid)).doctor_name).isSome) := by
  constructor
  · intro hemp
    simp [get_gp_doctor_backend, truthyS, hpid, hemp]
  · intro hne
    cases hs : (List.insertionSort gpMoreRecent (gpMatches store pid)).head? with
    | none =>
      exfalso
      rw [List.head?_eq_none_iff] at hs
      have hperm := List.perm_insertionSort gpMoreRecent (gpMatches store pid)
      rw [hs] at hperm
      exact hne hperm.symm.eq_nil
    | some top =>
      obtain ⟨hmem, hmax⟩ := gpSort_head_is_max (gpMatches store pid) top hs
      refine ⟨top, hmem, hmax, ?_⟩
      simp [get_gp_doctor_backend, truthyS, hpid, hs]

/-- Witness for `gp_doctor_lookup`: a single real GP appointment yields its
doctor as the most recent one. -/
theorem gp_doctor_lookup_w :
    ∃ a ∈ gpMatches [gpDrJones] "P2",
      (∀ b ∈ gpMatches [gpDrJones] "P2", b.timestamp.getD 0 ≤ a.timestamp.getD 0) ∧
      (get_gp_doctor_backend true [gpDrJones] (some "P2")).status = 200 ∧
      (get_gp_doctor_backend true [gpDrJones] (some "P2")).doctor_name =
        (if a.doctor_name = some "a GP doctor" then none else a.doctor_name) ∧
      (get_gp_doctor_backend true [gpDrJones] (some "P2")).success =
        ((get_gp_doctor_backend true [gpDrJones] (some "P2")).doctor_name).isSome :=
  (gp_doctor_lookup [gpDrJones] "P2" (by decide)).2 (by decide)

/-- Identity resolution fails with the mismatch error when a stored profile is
found and both names are present but differ case-insensitively. -/
theorem resolveIdentity_mismatch (store : List PatientDoc) (pid : String)
    (rn : Option String) (prof : PatientDoc) (fresh : String)
    (hA : pid ≠ "N/A") (hB : pid ≠ "")
    (hfind : findByPatientId store pid = some prof)
    (hrn : truthyS rn = true) (hdn : truthyS prof.fields.name = true)
    (hne : lowerStr (rn.getD "") ≠ lowerStr (prof.fields.name.getD "")) :
    resolveIdentity true store pid rn fresh =
      ResolveOutcome.mismatch (rn.getD "") (prof.fields.name.getD "") pid := by
  unfold resolveIdentity get_patient_profile_from_firestore
  rw [if_pos ⟨hB, hA⟩]
  simp [hfind, hrn, hdn, hne]

/-- C2: when the patient identifier resolves to a stored profile whose name
differs case-insensitively from the request name (both present), the whole
operation fails with a 400 validation error whose message names both values,
and performs no email send, no appointment write — and not even the profile
upsert, which the mismatch return precedes. -/
theorem name_mismatch_rejects (env : Env) (req : ReferralRequest) (prof : PatientDoc)
    (hdb : env.dbInit = true)
    (hA : req.patient_id.getD "N/A" ≠ "N/A") (hB : req.patient_id.getD "N/A" ≠ "")
    (hfind : findByPatientId env.patients (req.patient_id.getD "N/A") = some prof)
    (hrn : truthyS req.patient_name = true)
    (hdn : truthyS prof.fields.name = true)
    (hne : lowerStr (req.patient_name.getD "") ≠ lowerStr (prof.fields.name.getD "")) :
    (send_referral_email_backend env req).status = 400 ∧
    (send_referral_email_backend env req).success = false ∧
    (send_referral_email_backend env req).sends = [] ∧
    (send_referral_email_backend env req).appointments = env.appointments ∧
    (send_referral_email_backend env req).patients = env.patients ∧
    (send_referral_email_backend env req).message =
      "Patient name \x27" ++ req.patient_name.getD "" ++
        "\x27 does not match the name \x27" ++ prof.fields.name.getD "" ++
        "\x27 registered for Patient ID \x27" ++ req.patient_id.getD "N/A" ++
        "\x27. Please verify." := by
  have hres := resolveIdentity_mismatch env.patients (req.patient_id.getD "N/A")
    req.patient_name prof env.freshHex hA hB hfind hrn hdn hne
  rw [← hdb] at hres
  simp [send_referral_email_backend, hres, errorResult]

/-- Witness for `name_mismatch_rejects`: referring stored patient `P1`
("Alice Smith") under the name "Bob Jones" is rejected with no side
effects. -/
theorem name_mismatch_rejects_w :
    (send_referral_email_backend envWithAlice reqBob).status = 400 ∧
    (send_referral_email_backend envWithAlice reqBob).success = false ∧
    (send_referral_email_backend envWithAlice reqBob).sends = [] ∧
    (send_referral_email_backend envWithAlice reqBob).appointments =
      envWithAlice.appointments ∧
    (send_referral_email_backend envWithAlice reqBob).patients = envWithAlice.patients ∧
    (send_referral_email_backend envWithAlice reqBob).message =
      "Patient name \x27Bob Jones\x27 does not match the name \x27Alice Smith\x27 registered for Patient ID \x27P1\x27. Please verify." :=
  name_mismatch_rejects envWithAlice reqBob profAlice rfl (by decide) (by decide)
    (by decide) (by decide) (by decide) (by decide)

/-- C4 counterexample: with a malformed configured specialist address and a
valid new-patient request, the operation does fail with no sends and no
appointment write, but the patient-profile store has already been written —
refuting the claim that zero persistence writes (profile writes included)
occur. -/
theorem bad_specialist_email_still_writes_profile :
    emailMatches envBadSpec.specialistEmail = false ∧
    (send_referral_email_backend envBadSpec reqNew).sends = [] ∧
    (send_referral_email_backend envBadSpec reqNew).appointments =
      envBadSpec.appointments ∧
    (send_referral_email_backend envBadSpec reqNew).patients ≠ envBadSpec.patients := by
  decide

/-- C4 (amended): whenever the configured specialist address fails the email
pattern, the operation returns a failure (the 400 validation rejections or
the 500 internal-configuration error of the format check itself), attempts no
email send and writes no appointment record; the patient-profile upsert,
which precedes the check, is not prevented. -/
theorem bad_specialist_email_blocks_sends (env : Env) (req : ReferralRequest)
    (h : emailMatches env.specialistEmail = false) :
    (send_referral_email_backend env req).sends = [] ∧
    (send_referral_email_backend env req).appointments = env.appointments ∧
    (send_referral_email_backend env req).success = false ∧
    ((send_referral_email_backend env req).status = 400 ∨
      (send_referral_email_backend env req).status = 500) := by
  cases hres : resolveIdentity env.dbInit env.patients (req.patient_id.getD "N/A")
      req.patient_name env.freshHex with
  | mismatch rn dn pid =>
    simp [send_referral_email_backend, hres, errorResult]
  | resolved pid fname femail =>
    simp only [send_referral_email_backend, hres]
    by_cases hm : ((if truthyS fname = true then [] else ["patient_name"]) ++
        (if truthyS req.treatment_details = true then [] else ["treatment_details"])) ≠
        ([] : List String)
    · rw [if_pos hm]
      simp [errorResult]
    · rw [if_neg hm]
      have hc : ¬ (emailMatches env.specialistEmail = true) := by simp [h]
      rw [if_pos hc]
      simp [errorResult]

/-- Witness for `bad_specialist_email_blocks_sends` at a concrete
misconfigured environment. -/
theorem bad_specialist_email_blocks_sends_w :
    (send_referral_email_backend envBadSpec reqNew).sends = [] ∧
    (send_referral_email_backend envBadSpec reqNew).appointments =
      envBadSpec.appointments ∧
    (send_referral_email_backend envBadSpec reqNew).success = false ∧
    ((send_referral_email_backend envBadSpec reqNew).status = 400 ∨
      (send_referral_email_backend envBadSpec reqNew).status = 500) :=
  bad_specialist_email_blocks_sends envBadSpec reqNew (by decide)

/-- C3: whenever the pipeline completes (HTTP 200), the overall success flag
equals the conjunction of the specialist-send status, the patient-send status
and the persistence-success status; and when the resolved patient email is
absent the patient-send status is reported false and overall success is
false, whatever the other two statuses. -/
theorem success_flag_is_conjunction (env : Env) (req : ReferralRequest)
    (h : (send_referral_email_backend env req).status = 200) :
    ((send_referral_email_backend env req).success =
      ((send_referral_email_backend env req).specialist_email_sent_status.getD false &&
        (send_referral_email_backend env req).patient_email_sent_status.getD false &&
        (send_referral_email_backend env req).db_save_success.getD false)) ∧
    ((send_referral_email_backend env req).confirmation_email_address = none →
      (send_referral_email_backend env req).patient_email_sent_status = some false ∧
      (send_referral_email_backend env req).success = false) := by
  cases hres : resolveIdentity env.dbInit env.patients (req.patient_id.getD "N/A")
      req.patient_name env.freshHex with
  | mismatch rn dn pid =>
    rw [send_referral_email_backend] at h
    simp only [hres] at h
    simp [errorResult] at h
  | resolved pid fname femail =>
    rw [send_referral_email_backend] at h ⊢
    simp only [hres] at h ⊢
    by_cases hm : ((if truthyS fname = true then [] else ["patient_name"]) ++
        (if truthyS req.treatment_details = true then [] else ["treatment_details"])) ≠
        ([] : List String)
    · rw [if_pos hm] at h; simp [errorResult] at h
    · rw [if_neg hm] at h ⊢
      by_cases hc : ¬ (emailMatches env.specialistEmail = true)
      · rw [if_pos hc] at h; simp [errorResult] at h
      · rw [if_neg hc] at h ⊢
        by_cases hp : truthyS femail = true ∧
            ¬ (emailMatches (femail.getD "") = true)
        · rw [if_pos hp] at h; simp [errorResult] at h
        · rw [if_neg hp] at h ⊢
          constructor
          · simp
          · intro hconf
            simp only at hconf
            subst hconf
            simp [truthyS]

/-- Witness for `success_flag_is_conjunction` on a completed new-patient
request (specialist send and save succeed, patient email absent). -/
theorem success_flag_is_conjunction_w :
    ((send_referral_email_backend envOk reqNew).success =
      ((send_referral_email_backend envOk reqNew).specialist_email_sent_status.getD false &&
        (send_referral_email_backend envOk reqNew).patient_email_sent_status.getD false &&
        (send_referral_email_backend envOk reqNew).db_save_success.getD false)) ∧
    ((send_referral_email_backend envOk reqNew).confirmation_email_address = none →
      (send_referral_email_backend envOk reqNew).patient_email_sent_status = some false ∧
      (send_referral_email_backend envOk reqNew).success = false) :=
  success_flag_is_conjunction envOk reqNew (by decide)

/-- When the identifier is the sentinel, empty, or its lookup finds no
profile, identity resolution yields a resolved outcome with the request name
and no email (under some identifier). -/
theorem resolve_new_patient (dbInit : Bool) (store : List PatientDoc) (pid0 : String)
    (rn : Option String) (fresh : String)
    (h : pid0 = "N/A" ∨ pid0 = "" ∨
      (get_patient_profile_from_firestore dbInit store pid0).2 = false) :
    ∃ pid, resolveIdentity dbInit store pid0 rn fresh =
      ResolveOutcome.resolved pid rn none := by
  by_cases hc : pid0 ≠ "" ∧ pid0 ≠ "N/A"
  · have hfound : (get_patient_profile_from_firestore dbInit store pid0).2 = false := by
      rcases h with h | h | h
      · exact absurd h hc.2
      · exact absurd h hc.1
      · exact h
    refine ⟨pid0, ?_⟩
    exact (identity_resolution_new_patients dbInit store rn fresh).2 pid0 hc.2 hc.1 hfound
  · refine ⟨"PATIENT_" ++ fresh, ?_⟩
    apply (identity_resolution_new_patients dbInit store rn fresh).1
    rcases Decidable.not_and_iff_or_not.mp hc with hx | hx
    · exact Or.inr (Decidable.not_not.mp hx)
    · exact Or.inl (Decidable.not_not.mp hx)

/-- Membership in the appointment collection after a save: either the
document was already stored, or it is the newly stamped document. -/
theorem save_appointment_mem (dbInit : Bool) (store : List SpecApptFields)
    (details : SpecApptFields) (t : Nat) (a : SpecApptFields)
    (ha : a ∈ (save_appointment_to_firestore dbInit store details t).1) :
    a ∈ store ∨ a = { details with timestamp := t } := by
  unfold save_appointment_to_firestore at ha
  by_cases hd : dbInit
  · subst hd
    simp at ha
    rcases ha with ⟨h1, _⟩ | h2
    · exact Or.inl h1
    · exact Or.inr h2
  · simp [hd] at ha
    exact Or.inl ha

/-- C10 (implicit): for a request whose patient is new or unknown (sentinel,
absent or not-found identifier), the resolved patient email is none, no
patient confirmation send is ever attempted (every attempted send targets the
specialist address), the reported overall success is false, the patient-send
status is reported false whenever the pipeline completes, and any appointment
document written records a false patient-send status. -/
theorem new_patient_no_patient_send (env : Env) (req : ReferralRequest)
    (h : req.patient_id.getD "N/A" = "N/A" ∨ req.patient_id.getD "N/A" = "" ∨
      (get_patient_profile_from_firestore env.dbInit env.patients
        (req.patient_id.getD "N/A")).2 = false) :
    (send_referral_email_backend env req).confirmation_email_address = none ∧
    (send_referral_email_backend env req).success = false ∧
    (∀ s ∈ (send_referral_email_backend env req).sends, s = env.specialistEmail) ∧
    ((send_referral_email_backend env req).status = 200 →
      (send_referral_email_backend env req).patient_email_sent_status = some false) ∧
    (∀ a ∈ (send_referral_email_backend env req).appointments,
      a ∈ env.appointments ∨ a.patient_email_sent_status = false) := by
  obtain ⟨pid, hres⟩ := resolve_new_patient env.dbInit env.patients
    (req.patient_id.getD "N/A") req.patient_name env.freshHex h
  rw [send_referral_email_backend]
  simp only [hres]
  by_cases hm : ((if truthyS req.patient_name = true then [] else ["patient_name"]) ++
      (if truthyS req.treatment_details = true then [] else ["treatment_details"])) ≠
      ([] : List String)
  · rw [if_pos hm]
    exact ⟨rfl, rfl, fun s hs => by simp [errorResult] at hs,
      fun h2 => by simp [errorResult] at h2,
      fun a ha => Or.inl (by simpa [errorResult] using ha)⟩
  · rw [if_neg hm]
    by_cases hc : ¬ (emailMatches env.specialistEmail = true)
    · rw [if_pos hc]
      exact ⟨rfl, rfl, fun s hs => by simp [errorResult] at hs,
        fun h2 => by simp [errorResult] at h2,
        fun a ha => Or.inl (by simpa [errorResult] using ha)⟩
    · rw [if_neg hc]
      have hp : ¬ (truthyS (none : Option String) = true ∧
          ¬ (emailMatches ((none : Option String).getD "") = true)) := by
        simp [truthyS]
      rw [if_neg hp]
      refine ⟨rfl, by simp [truthyS], ?_, fun _ => rfl, ?_⟩
      · intro s hs
        simpa [truthyS] using hs
      · intro a ha
        rcases save_appointment_mem env.dbInit env.appointments _ env.serverTime a ha with
          hmem | heq
        · exact Or.inl hmem
        · rw [heq]
          exact Or.inr rfl

/-- Witness for `new_patient_no_patient_send` on a request with no
identifier. -/
theorem new_patient_no_patient_send_w :
    (send_referral_email_backend envOk reqNew).confirmation_email_address = none ∧
    (send_referral_email_backend envOk reqNew).success = false ∧
    (∀ s ∈ (send_referral_email_backend envOk reqNew).sends, s = envOk.specialistEmail) ∧
    ((send_referral_email_backend envOk reqNew).status = 200 →
      (send_referral_email_backend envOk reqNew).patient_email_sent_status = some false) ∧
    (∀ a ∈ (send_referral_email_backend envOk reqNew).appointments,
      a ∈ envOk.appointments ∨ a.patient_email_sent_status = false) :=
  new_patient_no_patient_send envOk reqNew (Or.inl rfl)
